import Mathlib

/-!
Verification development for the HoopsTrack repository.

The definitions below are a shallow embedding of the Python/Django source:
`users/models.py`, `users/permissions.py`, `teams/models.py`,
`stats/models.py` and `stats/views.py`.  Database rows become Lean
structures, nullable columns become `Option`, Python `round(x, n)` becomes
exact rational rounding half-to-even, Python exceptions
(`AttributeError` raised by a missing class attribute, Django `FieldError`
raised by `QuerySet.aggregate` on a non-column name) become `Except` errors.
-/

namespace HoopsTrack

/-! ## Rounding (model of Python `round(x, ndigits)` on exact rationals) -/

/-- Floor of a rational number, computed with integer floor division. -/
def ratFloor (q : ℚ) : ℤ := Int.fdiv q.num (q.den : ℤ)

/-- Round a rational to the nearest integer, ties going to the even
integer, as Python `round` does. -/
def roundHalfEven (q : ℚ) : ℤ :=
  let f : ℤ := ratFloor q
  if q - (f : ℚ) < 1/2 then f
  else if (1 : ℚ)/2 < q - (f : ℚ) then f + 1
  else if f % 2 = 0 then f else f + 1

/-- Model of Python `round(q, d)`: round to `d` decimal places,
ties to even. -/
def roundTo (d : ℕ) (q : ℚ) : ℚ :=
  ((roundHalfEven (q * (10 : ℚ) ^ d) : ℤ) : ℚ) / (10 : ℚ) ^ d

/-! ## Python-level errors surfaced by the embedded code -/

/-- Errors the embedded code can raise: `AttributeError` (Python attribute
lookup failure) and Django `FieldError` (aggregate over a name that is not
a database column). -/
inductive PyErr where
  | attributeError (name : String)
  | fieldError (name : String)
deriving DecidableEq, Repr

/-! ## users/models.py — the User model -/

/-- A row of the custom `User` model (`users/models.py`): the fields the
authorization code reads.  `role` is a free-form string column
(`models.CharField`). -/
structure UserRec where
  id : ℕ
  role : String
  is_authenticated : Bool
deriving DecidableEq, Repr

/-- Class-attribute lookup on the `User` class (`users/models.py` lines
18-21): the class body defines exactly the constants `PLAYER = 'player'`,
`COACH = 'coach'` and `STATISTICIAN = 'statistician'`; any other name
raises `AttributeError`.  In particular `User.ADMIN`, which
`users/permissions.py` reads, is not defined. -/
def userClassAttr : String → Except PyErr String
  | "PLAYER" => .ok "player"
  | "COACH" => .ok "coach"
  | "STATISTICIAN" => .ok "statistician"
  | other => .error (.attributeError other)

/-! ## teams/models.py — Team and Player -/

/-- A `Team` row (`teams/models.py`): `coach` is a nullable one-to-one
reference to a User, `staff` a many-to-many set of Users. -/
structure Team where
  id : ℕ
  coach : Option ℕ
  staff : List ℕ
deriving DecidableEq, Repr

/-- A `Player` row (`teams/models.py`): one-to-one `user` reference with
related name `player_profile`, and a nullable `team` reference. -/
structure Player where
  user : ℕ
  team : Option ℕ
deriving DecidableEq, Repr

/-- Instance-attribute lookup on a `User` object for the reverse one-to-one
accessor to `Player`.  `teams/models.py` declares
`related_name='player_profile'`, so only the name `"player_profile"`
resolves (and only when a `Player` row for this user exists); any other
name — in particular `"player"`, which `IsTeamMember` reads — raises
`AttributeError`. -/
def userInstanceAttr (db : List Player) (u : UserRec) : String → Except PyErr Player
  | "player_profile" =>
    match db.find? (fun p => p.user == u.id) with
    | some p => .ok p
    | none => .error (.attributeError "player_profile")
  | other => .error (.attributeError other)

/-! ## users/permissions.py — permission classes

Each Python permission method is embedded as a function returning
`Except PyErr Bool`: reading `User.ADMIN` goes through `userClassAttr`
exactly where the Python expression evaluates it, so an undefined class
attribute surfaces as `.error` (an uncaught `AttributeError`), and the
evaluation order of the Python `and`/`or`/`in` expressions is preserved. -/

/-- `IsAdmin.has_permission` (`users/permissions.py` line 22):
`request.user and request.user.role == User.ADMIN`. -/
def isAdmin_has_permission (user : Option UserRec) : Except PyErr Bool :=
  match user with
  | none => .ok false
  | some u => do
    let adm ← userClassAttr "ADMIN"
    pure (u.role == adm)

/-- `IsCoach.has_permission` (line 43):
`request.user and request.user.role == User.COACH`. -/
def isCoach_has_permission (user : Option UserRec) : Except PyErr Bool :=
  match user with
  | none => .ok false
  | some u => do
    let c ← userClassAttr "COACH"
    pure (u.role == c)

/-- `IsPlayer.has_permission` (line 64):
`request.user and request.user.role == User.PLAYER`. -/
def isPlayer_has_permission (user : Option UserRec) : Except PyErr Bool :=
  match user with
  | none => .ok false
  | some u => do
    let p ← userClassAttr "PLAYER"
    pure (u.role == p)

/-- `IsStatistician.has_permission` (line 85):
`request.user and request.user.role == User.STATISTICIAN`. -/
def isStatistician_has_permission (user : Option UserRec) : Except PyErr Bool :=
  match user with
  | none => .ok false
  | some u => do
    let s ← userClassAttr "STATISTICIAN"
    pure (u.role == s)

/-- `IsStaff.has_permission` (line 106): `request.user and
request.user.role in [User.COACH, User.STATISTICIAN, User.ADMIN]`; the
list literal evaluates its elements left to right before the membership
test. -/
def isStaff_has_permission (user : Option UserRec) : Except PyErr Bool :=
  match user with
  | none => .ok false
  | some u => do
    let c ← userClassAttr "COACH"
    let s ← userClassAttr "STATISTICIAN"
    let adm ← userClassAttr "ADMIN"
    pure (u.role == c || u.role == s || u.role == adm)

/-- `IsTeamCoach.has_object_permission` (lines 129-132):
`request.user and (request.user.role == User.ADMIN or
(request.user.role == User.COACH and hasattr(obj, 'coach') and
obj.coach == request.user))`.  A `Team` object always has a `coach`
attribute, so the `hasattr` probe is `true` here. -/
def isTeamCoach_has_object_permission (user : Option UserRec) (obj : Team) :
    Except PyErr Bool :=
  match user with
  | none => .ok false
  | some u => do
    let adm ← userClassAttr "ADMIN"
    if u.role == adm then pure true
    else do
      let c ← userClassAttr "COACH"
      pure (u.role == c && obj.coach == some u.id)

/-- `IsTeamStatistician.has_object_permission` (lines 155-158):
`request.user and (request.user.role == User.ADMIN or
(request.user.role == User.STATISTICIAN and hasattr(obj, 'staff') and
request.user in obj.staff.all()))`. -/
def isTeamStatistician_has_object_permission (user : Option UserRec) (obj : Team) :
    Except PyErr Bool :=
  match user with
  | none => .ok false
  | some u => do
    let adm ← userClassAttr "ADMIN"
    if u.role == adm then pure true
    else do
      let s ← userClassAttr "STATISTICIAN"
      pure (u.role == s && obj.staff.contains u.id)

/-- `IsTeamMember.has_object_permission` (lines 169-206).  The admin test
`request.user.role == User.ADMIN` runs first; the coach, statistician and
player branches follow in source order.  The player branch reads
`request.user.player` inside `try: ... except: pass`, so an
`AttributeError` there is swallowed and the check falls through to
`return False`. -/
def isTeamMember_has_object_permission (db : List Player)
    (user : Option UserRec) (obj : Team) : Except PyErr Bool :=
  match user with
  | none => .ok false
  | some u => do
    let adm ← userClassAttr "ADMIN"
    if u.role == adm then pure true
    else do
      let c ← userClassAttr "COACH"
      if u.role == c && obj.coach == some u.id then pure true
      else do
        let s ← userClassAttr "STATISTICIAN"
        if u.role == s && obj.staff.contains u.id then pure true
        else do
          let p ← userClassAttr "PLAYER"
          if u.role == p then
            match userInstanceAttr db u "player" with
            | .ok pl => pure (pl.team == some obj.id)
            | .error _ => pure false
          else pure false

/-! ## DRF gate of the stats viewsets (`stats/views.py`)

`PerformanceViewSet` (line 193) and `TeamPerformanceViewSet` (line 270)
declare `permission_classes = [IsAuthenticated]` and nothing else, so for
every action — including update — the only check rest_framework runs is
`IsAuthenticated.has_permission` (its default `has_object_permission`
returns `True`). -/

/-- `rest_framework.permissions.IsAuthenticated.has_permission`:
`bool(request.user and request.user.is_authenticated)`. -/
def isAuthenticated_has_permission (user : Option UserRec) : Bool :=
  match user with
  | none => false
  | some u => u.is_authenticated

/-! ## stats/models.py — Game -/

/-- The four values of `Game.STATUS_CHOICES` (`stats/models.py` lines
41-52). -/
inductive GameStatus where
  | scheduled
  | live
  | completed
  | cancelled
deriving DecidableEq, Repr

/-- A `Game` row (`stats/models.py`): home/away team references, nullable
scores (`PositiveIntegerField(null=True)`), and a status. -/
structure Game where
  home_team : ℕ
  away_team : ℕ
  home_score : Option ℕ
  away_score : Option ℕ
  status : GameStatus
deriving DecidableEq, Repr

/-- `Game.is_completed` (`stats/models.py` line 81):
`self.status == self.COMPLETED`. -/
def Game.is_completed (g : Game) : Bool :=
  decide (g.status = GameStatus.completed)

/-- `Game.winner` (`stats/models.py` lines 93-99): `None` when the game is
not completed or a score is missing; otherwise the team with the higher
score, or `None` on a tie. -/
def Game.winner (g : Game) : Option ℕ :=
  if !g.is_completed || g.home_score.isNone || g.away_score.isNone then
    none
  else
    match g.home_score, g.away_score with
    | some h, some a =>
      if h > a then some g.home_team
      else if a > h then some g.away_team
      else none
    | _, _ => none

/-! ## stats/models.py — Performance and TeamPerformance -/

/-- A `Performance` row (`stats/models.py` lines 102-162): references plus
the raw counting stats, all `PositiveSmallIntegerField(default=0)`. -/
structure Performance where
  player : ℕ
  game : ℕ
  minutes_played : ℕ
  points : ℕ
  field_goals_made : ℕ
  field_goals_attempted : ℕ
  three_pointers_made : ℕ
  three_pointers_attempted : ℕ
  free_throws_made : ℕ
  free_throws_attempted : ℕ
  offensive_rebounds : ℕ
  defensive_rebounds : ℕ
  assists : ℕ
  steals : ℕ
  blocks : ℕ
  turnovers : ℕ
  personal_fouls : ℕ
  created_by : Option ℕ
deriving DecidableEq, Repr

/-- `Performance.total_rebounds` (lines 177-182): a read-only `@property`,
never a stored column. -/
def Performance.total_rebounds (p : Performance) : ℕ :=
  p.offensive_rebounds + p.defensive_rebounds

/-- `Performance.field_goal_percentage` (lines 184-195): `None` when
`field_goals_attempted == 0`, else
`round((made / attempted) * 100, 1)`. -/
def Performance.field_goal_percentage (p : Performance) : Option ℚ :=
  if p.field_goals_attempted = 0 then none
  else some (roundTo 1 ((p.field_goals_made : ℚ) / (p.field_goals_attempted : ℚ) * 100))

/-- `Performance.three_point_percentage` (lines 197-208). -/
def Performance.three_point_percentage (p : Performance) : Option ℚ :=
  if p.three_pointers_attempted = 0 then none
  else some (roundTo 1 ((p.three_pointers_made : ℚ) / (p.three_pointers_attempted : ℚ) * 100))

/-- `Performance.free_throw_percentage` (lines 210-221). -/
def Performance.free_throw_percentage (p : Performance) : Option ℚ :=
  if p.free_throws_attempted = 0 then none
  else some (roundTo 1 ((p.free_throws_made : ℚ) / (p.free_throws_attempted : ℚ) * 100))

/-- A `TeamPerformance` row (`stats/models.py` lines 224-275): same
raw-count shape as `Performance`, keyed by team instead of player. -/
structure TeamPerformance where
  team : ℕ
  game : ℕ
  points : ℕ
  field_goals_made : ℕ
  field_goals_attempted : ℕ
  three_pointers_made : ℕ
  three_pointers_attempted : ℕ
  free_throws_made : ℕ
  free_throws_attempted : ℕ
  offensive_rebounds : ℕ
  defensive_rebounds : ℕ
  assists : ℕ
  steals : ℕ
  blocks : ℕ
  turnovers : ℕ
  personal_fouls : ℕ
  created_by : Option ℕ
deriving DecidableEq, Repr

/-- `TeamPerformance.total_rebounds` (lines 290-295). -/
def TeamPerformance.total_rebounds (tp : TeamPerformance) : ℕ :=
  tp.offensive_rebounds + tp.defensive_rebounds

/-- `TeamPerformance.field_goal_percentage` (lines 297-308). -/
def TeamPerformance.field_goal_percentage (tp : TeamPerformance) : Option ℚ :=
  if tp.field_goals_attempted = 0 then none
  else some (roundTo 1 ((tp.field_goals_made : ℚ) / (tp.field_goals_attempted : ℚ) * 100))

/-- `TeamPerformance.three_point_percentage` (lines 310-321). -/
def TeamPerformance.three_point_percentage (tp : TeamPerformance) : Option ℚ :=
  if tp.three_pointers_attempted = 0 then none
  else some (roundTo 1 ((tp.three_pointers_made : ℚ) / (tp.three_pointers_attempted : ℚ) * 100))

/-- `TeamPerformance.free_throw_percentage` (lines 323-334). -/
def TeamPerformance.free_throw_percentage (tp : TeamPerformance) : Option ℚ :=
  if tp.free_throws_attempted = 0 then none
  else some (roundTo 1 ((tp.free_throws_made : ℚ) / (tp.free_throws_attempted : ℚ) * 100))

/-- Upper bound of Django `PositiveSmallIntegerField` (0..32767), the type
of every raw counting column of `Performance`. -/
def smallPosMax : ℕ := 32767

/-- Validity of a `Performance` write at the public interface: each raw
count fits its `PositiveSmallIntegerField` column.  Neither the model nor
`PerformanceSerializer` imposes any cross-field constraint such as
`made ≤ attempted`. -/
def performanceInputValid (p : Performance) : Bool :=
  p.minutes_played ≤ smallPosMax && p.points ≤ smallPosMax &&
  p.field_goals_made ≤ smallPosMax && p.field_goals_attempted ≤ smallPosMax &&
  p.three_pointers_made ≤ smallPosMax && p.three_pointers_attempted ≤ smallPosMax &&
  p.free_throws_made ≤ smallPosMax && p.free_throws_attempted ≤ smallPosMax &&
  p.offensive_rebounds ≤ smallPosMax && p.defensive_rebounds ≤ smallPosMax &&
  p.assists ≤ smallPosMax && p.steals ≤ smallPosMax &&
  p.blocks ≤ smallPosMax && p.turnovers ≤ smallPosMax &&
  p.personal_fouls ≤ smallPosMax

/-! ## Serializer updates (`stats/views.py` lines 15-73)

`PerformanceSerializer` and `TeamPerformanceSerializer` mark the derived
fields (`total_rebounds` and the three percentages) read-only; a partial
update may rewrite any raw counting column but cannot touch a derived
value, because no derived value is stored at all. -/

/-- A partial update through `PerformanceSerializer`: `some v` sets a
writable raw-count field, `none` leaves it unchanged. -/
structure PerformanceUpdate where
  minutes_played : Option ℕ := none
  points : Option ℕ := none
  field_goals_made : Option ℕ := none
  field_goals_attempted : Option ℕ := none
  three_pointers_made : Option ℕ := none
  three_pointers_attempted : Option ℕ := none
  free_throws_made : Option ℕ := none
  free_throws_attempted : Option ℕ := none
  offensive_rebounds : Option ℕ := none
  defensive_rebounds : Option ℕ := none
  assists : Option ℕ := none
  steals : Option ℕ := none
  blocks : Option ℕ := none
  turnovers : Option ℕ := none
  personal_fouls : Option ℕ := none

/-- Apply a serializer update to a stored `Performance` row. -/
def applyPerformanceUpdate (u : PerformanceUpdate) (p : Performance) : Performance :=
  { p with
    minutes_played := u.minutes_played.getD p.minutes_played
    points := u.points.getD p.points
    field_goals_made := u.field_goals_made.getD p.field_goals_made
    field_goals_attempted := u.field_goals_attempted.getD p.field_goals_attempted
    three_pointers_made := u.three_pointers_made.getD p.three_pointers_made
    three_pointers_attempted := u.three_pointers_attempted.getD p.three_pointers_attempted
    free_throws_made := u.free_throws_made.getD p.free_throws_made
    free_throws_attempted := u.free_throws_attempted.getD p.free_throws_attempted
    offensive_rebounds := u.offensive_rebounds.getD p.offensive_rebounds
    defensive_rebounds := u.defensive_rebounds.getD p.defensive_rebounds
    assists := u.assists.getD p.assists
    steals := u.steals.getD p.steals
    blocks := u.blocks.getD p.blocks
    turnovers := u.turnovers.getD p.turnovers
    personal_fouls := u.personal_fouls.getD p.personal_fouls }

/-- A partial update through `TeamPerformanceSerializer` (same writable
raw-count fields at team level). -/
structure TeamPerformanceUpdate where
  points : Option ℕ := none
  field_goals_made : Option ℕ := none
  field_goals_attempted : Option ℕ := none
  three_pointers_made : Option ℕ := none
  three_pointers_attempted : Option ℕ := none
  free_throws_made : Option ℕ := none
  free_throws_attempted : Option ℕ := none
  offensive_rebounds : Option ℕ := none
  defensive_rebounds : Option ℕ := none
  assists : Option ℕ := none
  steals : Option ℕ := none
  blocks : Option ℕ := none
  turnovers : Option ℕ := none
  personal_fouls : Option ℕ := none

/-- Apply a serializer update to a stored `TeamPerformance` row. -/
def applyTeamPerformanceUpdate (u : TeamPerformanceUpdate) (tp : TeamPerformance) :
    TeamPerformance :=
  { tp with
    points := u.points.getD tp.points
    field_goals_made := u.field_goals_made.getD tp.field_goals_made
    field_goals_attempted := u.field_goals_attempted.getD tp.field_goals_attempted
    three_pointers_made := u.three_pointers_made.getD tp.three_pointers_made
    three_pointers_attempted := u.three_pointers_attempted.getD tp.three_pointers_attempted
    free_throws_made := u.free_throws_made.getD tp.free_throws_made
    free_throws_attempted := u.free_throws_attempted.getD tp.free_throws_attempted
    offensive_rebounds := u.offensive_rebounds.getD tp.offensive_rebounds
    defensive_rebounds := u.defensive_rebounds.getD tp.defensive_rebounds
    assists := u.assists.getD tp.assists
    steals := u.steals.getD tp.steals
    blocks := u.blocks.getD tp.blocks
    turnovers := u.turnovers.getD tp.turnovers
    personal_fouls := u.personal_fouls.getD tp.personal_fouls }

/-! ## stats/views.py — viewset authorization -/

/-- Run a rest_framework permission list: every class must pass.  DRF calls
`has_permission` for each class; classes without an overridden
`has_object_permission` (such as `IsAuthenticated`) default it to
`True`. -/
def viewset_check_permissions (perms : List (Option UserRec → Bool))
    (user : Option UserRec) : Bool :=
  perms.all (fun p => p user)

/-- `PerformanceViewSet.permission_classes` (`stats/views.py` line 193):
`[IsAuthenticated]` and nothing role-based. -/
def performanceViewSet_permission_classes : List (Option UserRec → Bool) :=
  [isAuthenticated_has_permission]

/-- Authorization decision for updating a specific `Performance` through
`PerformanceViewSet`: only the declared permission classes run; none of
them inspects the target row, so the row is irrelevant to the result. -/
def performanceViewSet_can_update (user : Option UserRec) (_p : Performance) : Bool :=
  viewset_check_permissions performanceViewSet_permission_classes user

/-- `TeamPerformanceViewSet.permission_classes` (`stats/views.py` line
270): `[IsAuthenticated]`. -/
def teamPerformanceViewSet_permission_classes : List (Option UserRec → Bool) :=
  [isAuthenticated_has_permission]

/-- Authorization decision for creating or updating a `TeamPerformance`
through `TeamPerformanceViewSet`. -/
def teamPerformanceViewSet_can_update (user : Option UserRec)
    (_tp : TeamPerformance) : Bool :=
  viewset_check_permissions teamPerformanceViewSet_permission_classes user

/-! ## stats/views.py — player_averages (lines 224-260)

`player_averages` runs `Performance.objects.filter(player=player)
.aggregate(games=Count('id'), ppg=Avg('points'), rpg=Avg('total_rebounds'),
apg=Avg('assists'), spg=Avg('steals'), bpg=Avg('blocks'),
fg_pct=Avg('field_goal_percentage'), three_pct=Avg('three_point_percentage'),
ft_pct=Avg('free_throw_percentage'))`.  Django resolves each aggregated
name against the model's database columns; a name that is only a Python
`@property` (here `total_rebounds` and the three percentages) raises
`FieldError`. -/

/-- The database columns of the `Performance` model (`stats/models.py`
lines 102-162 plus the implicit `id` primary key).  The `@property`
members `total_rebounds`, `field_goal_percentage`,
`three_point_percentage` and `free_throw_percentage` are deliberately not
columns. -/
def performanceDbColumns : List String :=
  ["id", "player", "game", "minutes_played", "points",
   "field_goals_made", "field_goals_attempted",
   "three_pointers_made", "three_pointers_attempted",
   "free_throws_made", "free_throws_attempted",
   "offensive_rebounds", "defensive_rebounds",
   "assists", "steals", "blocks", "turnovers", "personal_fouls",
   "created_by", "created_at", "updated_at", "notes"]

/-- The names aggregated by `player_averages`, in the order the `aggregate`
call lists them (`stats/views.py` lines 240-250). -/
def playerAveragesAggregateNames : List String :=
  ["id", "points", "total_rebounds", "assists", "steals", "blocks",
   "field_goal_percentage", "three_point_percentage", "free_throw_percentage"]

/-- The value `player_averages` would build on success, one key per
aggregate. -/
structure PlayerAverages where
  games : ℕ
  ppg : Option ℚ
  rpg : Option ℚ
  apg : Option ℚ
  spg : Option ℚ
  bpg : Option ℚ
  fg_pct : Option ℚ
  three_pct : Option ℚ
  ft_pct : Option ℚ
deriving DecidableEq, Repr

/-- SQL `AVG` over a list of values: `NULL` (here `none`) on an empty
list, otherwise the arithmetic mean. -/
def avgOpt (l : List ℚ) : Option ℚ :=
  if l.length = 0 then none else some (l.sum / (l.length : ℚ))

/-- Embedding of `PerformanceViewSet.player_averages` for one player's
rows: Django first resolves every aggregated name against the model's
columns and raises `FieldError` at the first name that is not a column;
only if all resolve does it compute `Count('id')` and the `Avg`s (with
SQL `AVG` skipping `NULL`s, which for the percentage fields would exclude
rows whose attempted count is zero). -/
def player_averages (rows : List Performance) : Except PyErr PlayerAverages :=
  match playerAveragesAggregateNames.find? (fun n => !(performanceDbColumns.contains n)) with
  | some n => .error (.fieldError n)
  | none =>
    .ok { games := rows.length
          ppg := avgOpt (rows.map (fun r => (r.points : ℚ)))
          rpg := avgOpt (rows.map (fun r => (r.total_rebounds : ℚ)))
          apg := avgOpt (rows.map (fun r => (r.assists : ℚ)))
          spg := avgOpt (rows.map (fun r => (r.steals : ℚ)))
          bpg := avgOpt (rows.map (fun r => (r.blocks : ℚ)))
          fg_pct := avgOpt (rows.filterMap Performance.field_goal_percentage)
          three_pct := avgOpt (rows.filterMap Performance.three_point_percentage)
          ft_pct := avgOpt (rows.filterMap Performance.free_throw_percentage) }

/-! ## stats/views.py — won-loss record (lines 314-330)

The tail of `team_averages` computes the record from the `Game` table
alone, with no status filter:

    home_games = Game.objects.filter(home_team=team)
    home_wins  = home_games.filter(home_score__gt=F('away_score')).count()
    away_games = Game.objects.filter(away_team=team)
    away_wins  = away_games.filter(away_score__gt=F('home_score')).count()
    total_games = home_games.count() + away_games.count()
    total_wins  = home_wins + away_wins
    wins   = total_wins
    losses = total_games - total_wins
    win_percentage = round(total_wins / total_games, 3) if total_games > 0 else 0
-/

/-- SQL comparison `x > y` on nullable columns: a comparison with `NULL`
is not true, so rows with a missing score never count as wins. -/
def scoreGt : Option ℕ → Option ℕ → Bool
  | some a, some b => decide (b < a)
  | _, _ => false

/-- The wins/losses/win-percentage triple returned by `team_averages`. -/
structure TeamRecord where
  wins : ℕ
  losses : ℕ
  win_percentage : ℚ
deriving DecidableEq, Repr

/-- Embedding of the won-loss block of
`TeamPerformanceViewSet.team_averages` (`stats/views.py` lines 314-330),
as a function of the games table and the team id. -/
def team_record (games : List Game) (t : ℕ) : TeamRecord :=
  let home_games := games.filter (fun g => g.home_team == t)
  let home_wins := (home_games.filter (fun g => scoreGt g.home_score g.away_score)).length
  let away_games := games.filter (fun g => g.away_team == t)
  let away_wins := (away_games.filter (fun g => scoreGt g.away_score g.home_score)).length
  let total_games := home_games.length + away_games.length
  let total_wins := home_wins + away_wins
  { wins := total_wins
    losses := total_games - total_wins
    win_percentage :=
      if 0 < total_games then roundTo 3 ((total_wins : ℚ) / (total_games : ℚ)) else 0 }

/-! ## Spec-side formulations (written from the spec's words, for the
refinement claims) -/

/-- Spec-side percentage of one shot category: null iff `attempted = 0`,
otherwise `round(100 * made / attempted, 1)`. -/
def pctSpec (made attempted : ℕ) : Option ℚ :=
  if attempted = 0 then none
  else some (roundTo 1 (100 * (made : ℚ) / (attempted : ℚ)))

/-- Spec-side: the game is a win for team `t` — `t` is the home team and
`home_score > away_score`, or `t` is the away team and
`away_score > home_score` (a comparison with a missing score is not a
win). -/
def winForTeam (t : ℕ) (g : Game) : Bool :=
  (g.home_team == t && scoreGt g.home_score g.away_score) ||
  (g.away_team == t && scoreGt g.away_score g.home_score)

/-- Spec-side: the game involves team `t` as home or away. -/
def involvesTeam (t : ℕ) (g : Game) : Bool :=
  g.home_team == t || g.away_team == t

/-- Spec-side won-loss record, one scan over all games as the claim words
it: wins over the games involving the team, losses as the remainder
(ties and undecided games count as losses), win percentage rounded to 3
decimals or exactly 0 with no games. -/
def teamRecordSpec (games : List Game) (t : ℕ) : TeamRecord :=
  let total := (games.filter (involvesTeam t)).length
  let wins := (games.filter (winForTeam t)).length
  { wins := wins
    losses := total - wins
    win_percentage :=
      if 0 < total then roundTo 3 ((wins : ℚ) / (total : ℚ)) else 0 }

/-! ## Concrete fixtures -/

/-- A user whose `role` column holds `'admin'` (the `role` field is a
plain `CharField`, so the row can hold this string even though
`ROLE_CHOICES` does not list it). -/
def adminUser : UserRec := { id := 0, role := "admin", is_authenticated := true }

/-- An authenticated user with the `player` role. -/
def playerUser : UserRec := { id := 1, role := "player", is_authenticated := true }

/-- A team with id 7, no coach, empty staff. -/
def teamSeven : Team := { id := 7, coach := none, staff := [] }

/-- The `Player` table: user 1 is a player on team 7. -/
def playerDb : List Player := [{ user := 1, team := some 7 }]

/-- A `Performance` row belonging to player 2 — some other player's
performance from `playerUser`'s point of view. -/
def otherPlayersPerformance : Performance :=
  { player := 2, game := 1, minutes_played := 30, points := 12
    field_goals_made := 5, field_goals_attempted := 9
    three_pointers_made := 0, three_pointers_attempted := 2
    free_throws_made := 2, free_throws_attempted := 2
    offensive_rebounds := 1, defensive_rebounds := 4
    assists := 3, steals := 1, blocks := 0, turnovers := 2
    personal_fouls := 3, created_by := none }

/-- A `TeamPerformance` row for team 7. -/
def teamSevenPerformance : TeamPerformance :=
  { team := 7, game := 1, points := 80
    field_goals_made := 30, field_goals_attempted := 60
    three_pointers_made := 5, three_pointers_attempted := 20
    free_throws_made := 15, free_throws_attempted := 18
    offensive_rebounds := 10, defensive_rebounds := 25
    assists := 18, steals := 6, blocks := 3, turnovers := 12
    personal_fouls := 20, created_by := none }

/-- A stored `Performance` with more field goals made than attempted
(made 3, attempted 2): every count fits its column and nothing rejects
it. -/
def overfullPerformance : Performance :=
  { player := 1, game := 1, minutes_played := 10, points := 6
    field_goals_made := 3, field_goals_attempted := 2
    three_pointers_made := 0, three_pointers_attempted := 0
    free_throws_made := 0, free_throws_attempted := 0
    offensive_rebounds := 0, defensive_rebounds := 0
    assists := 0, steals := 0, blocks := 0, turnovers := 0
    personal_fouls := 0, created_by := none }

/-- The spec's scenario game: completed, 100 to 95 for the home team. -/
def completedGame : Game :=
  { home_team := 1, away_team := 2, home_score := some 100,
    away_score := some 95, status := GameStatus.completed }

/-- A concrete serializer update touching the rebound counts. -/
def rebUpdate : PerformanceUpdate := { offensive_rebounds := some 9 }

/-- A concrete team-level serializer update touching the rebound counts. -/
def teamRebUpdate : TeamPerformanceUpdate := { defensive_rebounds := some 11 }

/-- A games table holding a single scheduled (never completed) game that
involves team 0. -/
def scheduledOnlyGames : List Game :=
  [{ home_team := 0, away_team := 1, home_score := none, away_score := none,
     status := GameStatus.scheduled }]

/-- A games table for the won-loss witness: a completed home win for team
1, a completed tie, and a scheduled game. -/
def leagueGames : List Game :=
  [{ home_team := 1, away_team := 2, home_score := some 100,
     away_score := some 95, status := GameStatus.completed },
   { home_team := 2, away_team := 1, home_score := some 90,
     away_score := some 90, status := GameStatus.completed },
   { home_team := 1, away_team := 3, home_score := none, away_score := none,
     status := GameStatus.scheduled }]

/-! ## Helper lemmas about rounding -/

theorem ratFloor_intCast (n : ℤ) : ratFloor ((n : ℤ) : ℚ) = n := by
  simp [ratFloor, Rat.num_intCast, Rat.den_intCast]

theorem roundHalfEven_intCast (n : ℤ) : roundHalfEven ((n : ℤ) : ℚ) = n := by
  unfold roundHalfEven
  rw [ratFloor_intCast]
  norm_num

theorem roundTo_intValue (k : ℕ) (q : ℚ) (n : ℤ) (h : q * 10 ^ k = (n : ℚ)) :
    roundTo k q = (n : ℚ) / 10 ^ k := by
  rw [roundTo, h, roundHalfEven_intCast]

theorem ratFloor_nonneg {q : ℚ} (h : 0 ≤ q) : 0 ≤ ratFloor q :=
  Int.fdiv_nonneg (Rat.num_nonneg.mpr h) (by positivity)

theorem roundHalfEven_nonneg {q : ℚ} (h : 0 ≤ q) : 0 ≤ roundHalfEven q := by
  have hf := ratFloor_nonneg h
  unfold roundHalfEven
  dsimp only
  split
  · exact hf
  · split
    · omega
    · split <;> omega

theorem roundTo_nonneg (k : ℕ) {q : ℚ} (h : 0 ≤ q) : 0 ≤ roundTo k q := by
  unfold roundTo
  apply div_nonneg
  · exact_mod_cast roundHalfEven_nonneg (mul_nonneg h (by positivity))
  · positivity

/-! ## Helper lemmas about the won-loss scan -/

theorem filter_win_split (t : ℕ) :
    ∀ games : List Game, (∀ g ∈ games, g.home_team ≠ g.away_team) →
      (games.filter (fun g => g.home_team == t
            && scoreGt g.home_score g.away_score)).length
        + (games.filter (fun g => g.away_team == t
            && scoreGt g.away_score g.home_score)).length
        = (games.filter (winForTeam t)).length
  | [], _ => by simp
  | g :: gs, hd => by
    have hg : g.home_team ≠ g.away_team := hd g (List.mem_cons_self g gs)
    have ih := filter_win_split t gs (fun x hx => hd x (List.mem_cons_of_mem _ hx))
    by_cases h1 : g.home_team == t
    · have h2 : (g.away_team == t) = false := by
        simp only [beq_iff_eq] at h1
        simp only [beq_eq_false_iff_ne]
        omega
      by_cases h3 : scoreGt g.home_score g.away_score <;>
        · simp [List.filter_cons, winForTeam, h1, h2, h3]
          omega
    · by_cases h2 : g.away_team == t
      · by_cases h4 : scoreGt g.away_score g.home_score <;>
          · simp [List.filter_cons, winForTeam, h1, h2, h4]
            omega
      · simp [List.filter_cons, winForTeam, h1, h2]
        omega

theorem filter_involves_split (t : ℕ) :
    ∀ games : List Game, (∀ g ∈ games, g.home_team ≠ g.away_team) →
      (games.filter (fun g => g.home_team == t)).length
        + (games.filter (fun g => g.away_team == t)).length
        = (games.filter (involvesTeam t)).length
  | [], _ => by simp
  | g :: gs, hd => by
    have hg : g.home_team ≠ g.away_team := hd g (List.mem_cons_self g gs)
    have ih := filter_involves_split t gs (fun x hx => hd x (List.mem_cons_of_mem _ hx))
    by_cases h1 : g.home_team == t
    · have h2 : (g.away_team == t) = false := by
        simp only [beq_iff_eq] at h1
        simp only [beq_eq_false_iff_ne]
        omega
      simp [List.filter_cons, involvesTeam, h1, h2]
      omega
    · by_cases h2 : g.away_team == t <;>
        · simp [List.filter_cons, involvesTeam, h1, h2]
          omega

/-! ## Helper lemmas about percentages -/

theorem pct_if_eq_spec (m a : ℕ) :
    (if a = 0 then none else some (roundTo 1 ((m : ℚ) / (a : ℚ) * 100)))
      = pctSpec m a := by
  by_cases h : a = 0 <;> simp [pctSpec, h]
  congr 1
  ring

theorem pctSpec_none_iff (m a : ℕ) : pctSpec m a = none ↔ a = 0 := by
  unfold pctSpec
  split <;> simp_all

/-! ## Claim theorems -/

/-- C1: the spec states that every permission check returns Allow for an
admin principal.  In the code, evaluating any of the five checks for a
user whose role is `'admin'` instead raises `AttributeError`:
`users/permissions.py` reads `User.ADMIN`, a class constant that
`users/models.py` never defines (its `ROLE_CHOICES` has only player,
coach and statistician).  No check returns true; each fails. -/
theorem c1_admin_permission_checks_raise_attribute_error :
    userClassAttr "ADMIN" = .error (.attributeError "ADMIN")
    ∧ isAdmin_has_permission (some adminUser) = .error (.attributeError "ADMIN")
    ∧ isStaff_has_permission (some adminUser) = .error (.attributeError "ADMIN")
    ∧ isTeamCoach_has_object_permission (some adminUser) teamSeven
        = .error (.attributeError "ADMIN")
    ∧ isTeamStatistician_has_object_permission (some adminUser) teamSeven
        = .error (.attributeError "ADMIN")
    ∧ isTeamMember_has_object_permission playerDb (some adminUser) teamSeven
        = .error (.attributeError "ADMIN") :=
  ⟨rfl, rfl, rfl, rfl, rfl, rfl⟩

/-- C2: the spec states that only statistician-role (or admin) principals
may create or update Performance and TeamPerformance rows, and in
particular that a player updating another player's Performance is denied.
In the code both viewsets guard every action with `IsAuthenticated` alone,
so an authenticated player is allowed to update another player's
Performance and any TeamPerformance. -/
theorem c2_player_allowed_to_update_other_players_performance :
    playerUser.role = "player"
    ∧ otherPlayersPerformance.player ≠ playerUser.id
    ∧ performanceViewSet_can_update (some playerUser) otherPlayersPerformance = true
    ∧ teamPerformanceViewSet_can_update (some playerUser) teamSevenPerformance = true :=
  ⟨rfl, by decide, rfl, rfl⟩

/-- C3: the spec states that `player_averages` returns per-field means
(games_played = 0 with nulls for an empty set of rows).  In the code the
`aggregate` call names `total_rebounds`, `field_goal_percentage`,
`three_point_percentage` and `free_throw_percentage`, which are Python
properties and not database columns of `Performance`, so Django raises
`FieldError` on every call, whatever rows the player has. -/
theorem c3_player_averages_raises_field_error (rows : List Performance) :
    player_averages rows = .error (.fieldError "total_rebounds") := rfl

/-- C3 witness: the failure already happens for a player with zero
Performance rows. -/
theorem c3_player_averages_raises_field_error_witness :
    player_averages [] = .error (.fieldError "total_rebounds") :=
  c3_player_averages_raises_field_error []

/-- C4: the spec states `IsTeamMember` passes for a player whose own team
reference equals the target team.  In the code the check first evaluates
`request.user.role == User.ADMIN`, and `User.ADMIN` does not exist, so
the check raises `AttributeError` before the player branch is reached —
even for a player of the team (and that branch would itself read the
non-existent `request.user.player` attribute instead of
`player_profile`). -/
theorem c4_team_member_check_raises_for_team_player :
    playerUser.role = "player"
    ∧ playerDb = [{ user := playerUser.id, team := some teamSeven.id }]
    ∧ isTeamMember_has_object_permission playerDb (some playerUser) teamSeven
        = .error (.attributeError "ADMIN") :=
  ⟨rfl, rfl, rfl⟩

/-- C7: on both Performance and TeamPerformance, each of the three derived
percentages equals the spec formula — null exactly when the corresponding
attempted count is 0, and otherwise `round(100 * made / attempted, 1)`. -/
theorem c7_percentages_match_spec (p : Performance) (tp : TeamPerformance) :
    p.field_goal_percentage = pctSpec p.field_goals_made p.field_goals_attempted
    ∧ p.three_point_percentage = pctSpec p.three_pointers_made p.three_pointers_attempted
    ∧ p.free_throw_percentage = pctSpec p.free_throws_made p.free_throws_attempted
    ∧ tp.field_goal_percentage = pctSpec tp.field_goals_made tp.field_goals_attempted
    ∧ tp.three_point_percentage = pctSpec tp.three_pointers_made tp.three_pointers_attempted
    ∧ tp.free_throw_percentage = pctSpec tp.free_throws_made tp.free_throws_attempted
    ∧ (p.field_goal_percentage = none ↔ p.field_goals_attempted = 0)
    ∧ (p.three_point_percentage = none ↔ p.three_pointers_attempted = 0)
    ∧ (p.free_throw_percentage = none ↔ p.free_throws_attempted = 0)
    ∧ (tp.field_goal_percentage = none ↔ tp.field_goals_attempted = 0)
    ∧ (tp.three_point_percentage = none ↔ tp.three_pointers_attempted = 0)
    ∧ (tp.free_throw_percentage = none ↔ tp.free_throws_attempted = 0) := by
  have e1 : p.field_goal_percentage
      = pctSpec p.field_goals_made p.field_goals_attempted := pct_if_eq_spec _ _
  have e2 : p.three_point_percentage
      = pctSpec p.three_pointers_made p.three_pointers_attempted := pct_if_eq_spec _ _
  have e3 : p.free_throw_percentage
      = pctSpec p.free_throws_made p.free_throws_attempted := pct_if_eq_spec _ _
  have e4 : tp.field_goal_percentage
      = pctSpec tp.field_goals_made tp.field_goals_attempted := pct_if_eq_spec _ _
  have e5 : tp.three_point_percentage
      = pctSpec tp.three_pointers_made tp.three_pointers_attempted := pct_if_eq_spec _ _
  have e6 : tp.free_throw_percentage
      = pctSpec tp.free_throws_made tp.free_throws_attempted := pct_if_eq_spec _ _
  exact ⟨e1, e2, e3, e4, e5, e6,
    e1 ▸ pctSpec_none_iff _ _, e2 ▸ pctSpec_none_iff _ _, e3 ▸ pctSpec_none_iff _ _,
    e4 ▸ pctSpec_none_iff _ _, e5 ▸ pctSpec_none_iff _ _, e6 ▸ pctSpec_none_iff _ _⟩

/-- C7 witness: the fg-percentage refinement at the concrete records. -/
theorem c7_percentages_match_spec_witness :
    otherPlayersPerformance.field_goal_percentage
      = pctSpec otherPlayersPerformance.field_goals_made
          otherPlayersPerformance.field_goals_attempted :=
  (c7_percentages_match_spec otherPlayersPerformance teamSevenPerformance).1

/-- C8: for a game with distinct teams, `winner` is defined exactly when
the game is completed, both scores are present and they are unequal; when
defined it is the home team exactly on a home-score win and the away team
exactly on an away-score win, and it is never any third team. -/
theorem c8_winner_characterization (g : Game) (hne : g.home_team ≠ g.away_team) :
    (g.winner.isSome ↔ g.status = GameStatus.completed ∧ g.home_score.isSome
        ∧ g.away_score.isSome ∧ g.home_score ≠ g.away_score)
    ∧ (g.winner = some g.home_team ↔ g.status = GameStatus.completed
        ∧ ∃ h a, g.home_score = some h ∧ g.away_score = some a ∧ a < h)
    ∧ (g.winner = some g.away_team ↔ g.status = GameStatus.completed
        ∧ ∃ h a, g.home_score = some h ∧ g.away_score = some a ∧ h < a)
    ∧ (∀ t, g.winner = some t → t = g.home_team ∨ t = g.away_team) := by
  obtain ⟨hteam, ateam, hsc, asc, st⟩ := g
  simp only [Game.winner, Game.is_completed] at *
  cases st <;> cases hsc <;> cases asc <;>
    simp_all <;>
    rename_i h a <;>
    rcases Nat.lt_trichotomy h a with hlt | heq | hgt <;>
    simp_all [Nat.lt_asymm, Nat.ne_of_lt, Nat.ne_of_gt] <;>
    omega

/-- C8 witness: the spec's concrete scenario — completed 100:95 game —
has the home team as winner. -/
theorem c8_winner_characterization_witness :
    completedGame.home_team ≠ completedGame.away_team
    ∧ completedGame.winner = some completedGame.home_team :=
  ⟨by decide,
    ((c8_winner_characterization completedGame (by decide)).2.1).mpr
      ⟨rfl, 100, 95, rfl, rfl, by omega⟩⟩

/-- C5 counterexample: team 0 is involved in zero completed games, yet
`team_record` reports one loss — the single scheduled game is counted —
so the claim that wins, losses and win_percentage are all 0 for a team
with zero completed games is false as stated. -/
theorem c5_scheduled_game_counts_as_loss :
    (scheduledOnlyGames.filter
        (fun g => involvesTeam 0 g && g.is_completed)).length = 0
    ∧ (team_record scheduledOnlyGames 0).losses = 1
    ∧ ¬ ((team_record scheduledOnlyGames 0).wins = 0
         ∧ (team_record scheduledOnlyGames 0).losses = 0
         ∧ (team_record scheduledOnlyGames 0).win_percentage = 0) :=
  ⟨by decide, by decide, fun hc => absurd hc.2.1 (by decide)⟩

/-- C5 (amended): only for a team involved in zero games of any status
does `team_record` return wins = 0, losses = 0 and win_percentage = 0;
scheduled, live and cancelled games are scanned too, and each one that is
not a win counts as a loss. -/
theorem c5_zero_games_zero_record (games : List Game) (t : ℕ)
    (h : (games.filter (involvesTeam t)).length = 0) :
    team_record games t = { wins := 0, losses := 0, win_percentage := 0 } := by
  rw [List.length_eq_zero, List.filter_eq_nil_iff] at h
  have h1 : games.filter (fun g => g.home_team == t) = [] := by
    rw [List.filter_eq_nil_iff]
    intro g hg
    have hng := h g hg
    simp [involvesTeam] at hng
    simp [hng.1]
  have h2 : games.filter (fun g => g.away_team == t) = [] := by
    rw [List.filter_eq_nil_iff]
    intro g hg
    have hng := h g hg
    simp [involvesTeam] at hng
    simp [hng.2]
  unfold team_record
  rw [h1, h2]
  simp

/-- C5 witness (for the amended claim): a table whose only game does not
involve team 0 yields the all-zero record. -/
theorem c5_zero_games_zero_record_witness :
    (leagueGames.filter (involvesTeam 0)).length = 0
    ∧ team_record leagueGames 0 = { wins := 0, losses := 0, win_percentage := 0 } :=
  ⟨by decide, c5_zero_games_zero_record leagueGames 0 (by decide)⟩

/-- C6: for distinct-team games tables, the won-loss block of
`team_averages` computes exactly the claim's description — one scan over
the games involving the team, wins from decided score comparisons,
losses as everything else (ties and missing scores included), and
win_percentage rounded to three decimals or exactly 0 with no games. -/
theorem c6_team_record_matches_spec (games : List Game) (t : ℕ)
    (hd : ∀ g ∈ games, g.home_team ≠ g.away_team) :
    team_record games t = teamRecordSpec games t := by
  have hw := filter_win_split t games hd
  have ht := filter_involves_split t games hd
  have e1 : (games.filter (fun g => g.home_team == t)).filter
        (fun g => scoreGt g.home_score g.away_score)
      = games.filter (fun g => g.home_team == t
          && scoreGt g.home_score g.away_score) := by
    rw [List.filter_filter]
    exact List.filter_congr (fun x _ => Bool.and_comm _ _)
  have e2 : (games.filter (fun g => g.away_team == t)).filter
        (fun g => scoreGt g.away_score g.home_score)
      = games.filter (fun g => g.away_team == t
          && scoreGt g.away_score g.home_score) := by
    rw [List.filter_filter]
    exact List.filter_congr (fun x _ => Bool.and_comm _ _)
  unfold team_record teamRecordSpec
  dsimp only
  rw [e1, e2, hw, ht]

/-- C6 witness: a three-game table (home win, tie, scheduled) for team
1. -/
theorem c6_team_record_matches_spec_witness :
    (∀ g ∈ leagueGames, g.home_team ≠ g.away_team)
    ∧ team_record leagueGames 1 = teamRecordSpec leagueGames 1 :=
  ⟨by decide, c6_team_record_matches_spec leagueGames 1 (by decide)⟩

/-- C9: for every Performance and TeamPerformance record, and after any
serializer update of the writable raw-count fields, `total_rebounds`
equals `offensive_rebounds + defensive_rebounds`: the total is derived on
read and never stored, so no operation can make them diverge. -/
theorem c9_total_rebounds_always_derived (p : Performance) (tp : TeamPerformance)
    (u : PerformanceUpdate) (v : TeamPerformanceUpdate) :
    p.total_rebounds = p.offensive_rebounds + p.defensive_rebounds
    ∧ tp.total_rebounds = tp.offensive_rebounds + tp.defensive_rebounds
    ∧ (applyPerformanceUpdate u p).total_rebounds
        = (applyPerformanceUpdate u p).offensive_rebounds
          + (applyPerformanceUpdate u p).defensive_rebounds
    ∧ (applyTeamPerformanceUpdate v tp).total_rebounds
        = (applyTeamPerformanceUpdate v tp).offensive_rebounds
          + (applyTeamPerformanceUpdate v tp).defensive_rebounds :=
  ⟨rfl, rfl, rfl, rfl⟩

/-- C9 witness: the invariant at a concrete record, team record and
concrete updates. -/
theorem c9_total_rebounds_always_derived_witness :
    otherPlayersPerformance.total_rebounds
      = otherPlayersPerformance.offensive_rebounds
        + otherPlayersPerformance.defensive_rebounds
    ∧ teamSevenPerformance.total_rebounds
        = teamSevenPerformance.offensive_rebounds
          + teamSevenPerformance.defensive_rebounds
    ∧ (applyPerformanceUpdate rebUpdate otherPlayersPerformance).total_rebounds
        = (applyPerformanceUpdate rebUpdate otherPlayersPerformance).offensive_rebounds
          + (applyPerformanceUpdate rebUpdate otherPlayersPerformance).defensive_rebounds
    ∧ (applyTeamPerformanceUpdate teamRebUpdate teamSevenPerformance).total_rebounds
        = (applyTeamPerformanceUpdate teamRebUpdate teamSevenPerformance).offensive_rebounds
          + (applyTeamPerformanceUpdate teamRebUpdate teamSevenPerformance).defensive_rebounds :=
  c9_total_rebounds_always_derived otherPlayersPerformance teamSevenPerformance
    rebUpdate teamRebUpdate

/-- C10: nothing constrains `made ≤ attempted`: whenever shots were
attempted the derived percentage exists and is non-negative, and the
stored record with `field_goals_made = 3, field_goals_attempted = 2`
passes every column bound yet reports `field_goal_percentage = 150`,
strictly above 100, at the public interface. -/
theorem c10_percentage_exceeds_100 (p : Performance)
    (h : p.field_goals_attempted ≠ 0) :
    (∃ q, p.field_goal_percentage = some q ∧ 0 ≤ q)
    ∧ performanceInputValid overfullPerformance = true
    ∧ overfullPerformance.field_goal_percentage = some 150
    ∧ (100 : ℚ) < 150 := by
  refine ⟨⟨roundTo 1 ((p.field_goals_made : ℚ) / (p.field_goals_attempted : ℚ) * 100),
    ?_, ?_⟩, rfl, ?_, by norm_num⟩
  · simp [Performance.field_goal_percentage, h]
  · exact roundTo_nonneg 1 (by positivity)
  · have h1 : overfullPerformance.field_goal_percentage
        = some (roundTo 1 ((3 : ℚ) / 2 * 100)) := by
      simp [Performance.field_goal_percentage, overfullPerformance]
    rw [h1, roundTo_intValue 1 _ 1500 (by norm_num)]
    norm_num

/-- C10 witness: the theorem instantiated at the overfull record itself. -/
theorem c10_percentage_exceeds_100_witness :
    overfullPerformance.field_goals_attempted ≠ 0
    ∧ ((∃ q, overfullPerformance.field_goal_percentage = some q ∧ 0 ≤ q)
       ∧ performanceInputValid overfullPerformance = true
       ∧ overfullPerformance.field_goal_percentage = some 150
       ∧ (100 : ℚ) < 150) :=
  ⟨by decide, c10_percentage_exceeds_100 overfullPerformance (by decide)⟩

end HoopsTrack
